import Mathlib

/-
Verification development for the Image_Annotater repository.

The definitions below are shallow embeddings of the Python source:
  * src/components/canvas_box.py   (canvas rectangle extraction, zoom, scale factor)
  * src/main.py                    (get_scaled_boxes, handle_confirm_annotation)
  * src/utils/file_utils.py        (path mapping, rename pass, stats walk)
  * src/utils/schema_utils.py      (the FixedSchema / VLMSFTData record model)

Machine integers are modelled as Int / Nat; Python float arithmetic on the
scale factor is modelled with exact rationals (Rat); Python round() is
modelled by banker's rounding (round half to even) on rationals.
-/

namespace ImgAnnot

/-- Python round() with no ndigits: round half to even, on an exact rational. -/
def pyRound (q : Rat) : Int :=
  let f : Int := ⌊q⌋
  let r : Rat := q - (f : Rat)
  if r < 1/2 then f
  else if 1/2 < r then f + 1
  else if f % 2 = 0 then f else f + 1

/-! ### Canvas model (src/components/canvas_box.py) -/

/-- One object reported by the drawable canvas (canvas_result.json_data objects).
`otype` is the fabric.js object type string, the geometry fields are the
int()-converted left/top/width/height, `stroke` the stroke color string. -/
structure CanvasObject where
  otype : String
  left : Int
  top : Int
  width : Int
  height : Int
  stroke : String
deriving DecidableEq, Repr

/-- The display-space box stored for one kept rectangle (canvas_box.py lines
224-229): corners in bottom-left-origin display coordinates. -/
def canvasBox (display_h : Int) (o : CanvasObject) : List (Int × Int) :=
  [ (o.left, display_h - o.top),
    (o.left + o.width, display_h - o.top),
    (o.left + o.width, display_h - o.top - o.height),
    (o.left, display_h - o.top - o.height) ]

/-- Rectangle extraction loop of canvas_box.py lines 203-230: keep objects of
type "rect", drop any with non-positive width or height, emit `canvasBox`. -/
def extractBoxes (objs : List CanvasObject) (display_h : Int) : List (List (Int × Int)) :=
  (objs.filter (fun o => o.otype == "rect")).filterMap
    (fun o => if o.width ≤ 0 ∨ o.height ≤ 0 then none else some (canvasBox display_h o))

/-- Predicate for an object the extraction loop keeps. -/
def goodRect (o : CanvasObject) : Bool :=
  o.otype == "rect" && !(decide (o.width ≤ 0) || decide (o.height ≤ 0))

/-- Rotated image dimensions (canvas_box.py line 122: rotate(-angle, expand=True)
swaps width and height for 90 and 270 degrees). -/
def rotatedDims (w h rot : Nat) : Nat × Nat :=
  if rot % 180 = 0 then (w, h) else (h, w)

/-- Displayed width after zoom (canvas_box.py line 153: int(w_orig * zoom_pct / 100)). -/
def displaySide (side zoom : Nat) : Nat :=
  side * zoom / 100

/-- canvas_box.py lines 155-165: scale_factor = w_orig / display_w, overwritten
with exactly 1.0 when zoom_pct == 100. -/
def scale_factor (w_rot zoom : Nat) : Rat :=
  if zoom = 100 then 1 else (w_rot : Rat) / ((displaySide w_rot zoom : Nat) : Rat)

/-! ### Display-to-original scaling (src/main.py get_scaled_boxes, lines 297-312) -/

/-- main.py lines 297-312: if the scale factor is within 1e-6 of 1.0 the boxes
are returned unchanged; otherwise every 4-element box is scaled pointwise by
int(round(x * scale_factor)) and every other candidate is skipped. -/
def get_scaled_boxes (boxes : List (List (Int × Int))) (s : Rat) : List (List (Int × Int)) :=
  if |s - 1| < 1/1000000 then boxes
  else boxes.filterMap (fun box =>
    if box.length = 4 then
      some (box.map (fun p => (pyRound ((p.1 : Rat) * s), pyRound ((p.2 : Rat) * s))))
    else none)

/-- Per-box effect of get_scaled_boxes on a 4-element box. -/
def scaleBoxCode (s : Rat) (box : List (Int × Int)) : List (Int × Int) :=
  if |s - 1| < 1/1000000 then box
  else box.map (fun p => (pyRound ((p.1 : Rat) * s), pyRound ((p.2 : Rat) * s)))

/-- The boxes the confirm action persists into bounding_box (main.py lines
564-567 followed by 141-156): extract display boxes from the canvas at the
rotated, zoomed display height, then run get_scaled_boxes at the frame's
scale factor. -/
def codeConfirmBoxes (objs : List CanvasObject) (w h rot zoom : Nat) : List (List (Int × Int)) :=
  get_scaled_boxes
    (extractBoxes objs ((displaySide (rotatedDims w h rot).2 zoom : Nat) : Int))
    (scale_factor (rotatedDims w h rot).1 zoom)

/-! ### Spec-side coordinate pipeline (for comparison with the code) -/

/-- Modelled from the spec, section 4.2 / 8: the full display-to-original
pipeline the spec requires for persisted boxes: undo the origin flip
(y becomes display_height - y), multiply both coordinates by the scale
factor, then apply the inverse right-angle rotation mapping using the
rotated width/height as the reference frame. -/
def specToOriginalPoint (rot : Nat) (wRot hRot dispH s : Rat) (p : Int × Int) : Rat × Rat :=
  let u : Rat := (p.1 : Rat) * s
  let v : Rat := (dispH - (p.2 : Rat)) * s
  match rot with
  | 90 => (v, wRot - u)
  | 180 => (wRot - u, hRot - v)
  | 270 => (hRot - v, u)
  | _ => (u, v)

/-- Modelled from the spec: the spec pipeline applied to every corner of a
stored display-space box. -/
def specToOriginalBox (rot : Nat) (wRot hRot dispH s : Rat) (b : List (Int × Int)) :
    List (Rat × Rat) :=
  b.map (specToOriginalPoint rot wRot hRot dispH s)

/-- Width of a stored display-space box, read off its corner points. -/
def boxW : List (Int × Int) → Int
  | p0 :: p1 :: _ => p1.1 - p0.1
  | _ => 0

/-- Height of a stored display-space box, read off its corner points. -/
def boxH : List (Int × Int) → Int
  | p0 :: _ :: p2 :: _ => p0.2 - p2.2
  | _ => 0

/-! ### Annotation record model (src/utils/schema_utils.py) -/

/-- LanguageInfo model of schema_utils.py. -/
structure LanguageInfo where
  source : List String
  target : Option (List String)
deriving DecidableEq, Repr

/-- Default LanguageInfo (source languages ms and en, no target). -/
def defaultLanguage : LanguageInfo :=
  { source := ["ms", "en"], target := none }

/-- Metadata model of schema_utils.py; datetime is modelled as a Nat tick. -/
structure SchemaMeta where
  license : Option String
  annotator_id : Option String
  language_quality_score : Option Rat
  timestamp : Nat
deriving DecidableEq, Repr

/-- Metadata() constructed fresh at time `now`. -/
def freshMeta (now : Nat) : SchemaMeta :=
  { license := some "CC-BY", annotator_id := none,
    language_quality_score := none, timestamp := now }

/-- The FixedSchema / VLMSFTData record of schema_utils.py. -/
structure VLMSFTData where
  image_id : String
  image_path : String
  task_type : String
  text_ms : String
  answer_ms : String
  text_en : String
  answer_en : String
  language : LanguageInfo
  source : String
  split : String
  difficulty : String
  tags : List String
  bounding_box : List (List (Int × Int))
  metadata : SchemaMeta
deriving DecidableEq, Repr

/-- Structural split of a character list at a separator character. -/
def splitChar (c : Char) : List Char → List (List Char)
  | [] => [[]]
  | x :: xs =>
    match splitChar c xs with
    | [] => [[]]
    | r :: rs => if x == c then [] :: r :: rs else (x :: r) :: rs

/-- str.split at a single-character separator (same behaviour as Python and
as String.splitOn at a one-character pattern, but structurally recursive). -/
def strSplitOn (c : Char) (s : String) : List String :=
  (splitChar c s.data).map String.mk

/-- str.startswith, as a prefix test on the character data. -/
def strStartsWith (s pre : String) : Bool :=
  pre.data.isPrefixOf s.data

/-- Stem of a file name: Python pathlib keeps the whole name when the only
dot is the leading one, otherwise drops the last dot and what follows. -/
def pyStemName (name : String) : String :=
  let front := String.intercalate "." (strSplitOn '.' name).dropLast
  if front = "" then name else front

/-- Path(p).stem for a posix-style path string. -/
def pyStem (p : String) : String :=
  pyStemName ((strSplitOn '/' p).getLastD "")

/-- The record built by handle_confirm_annotation when no loaded schema
matches the confirmed path (main.py lines 152-156 and 180-186): all fields
take the model defaults, task_type is captioning for an empty box list and
otherwise the random vqa/instruction draw `rt`, image_id is the path stem. -/
def freshSchema (img : String) (boxes : List (List (Int × Int))) (rt : String)
    (now : Nat) : VLMSFTData :=
  { image_id := pyStem img
    image_path := img
    task_type := if boxes.isEmpty then "captioning" else rt
    text_ms := "", answer_ms := "", text_en := "", answer_en := ""
    language := defaultLanguage
    source := "Image_Annotater"
    split := "train"
    difficulty := "medium"
    tags := []
    bounding_box := boxes
    metadata := freshMeta now }

/-- handle_confirm_annotation, main.py lines 147-186: when a schema is loaded
for the same image_path, bounding_box is replaced by the new boxes while
difficulty, tags, the four text fields, task_type, language, split, source
and metadata (with a refreshed timestamp) are carried over from the loaded
record; otherwise a fresh record is created. -/
def confirmSchema (existing : Option VLMSFTData) (img : String)
    (boxes : List (List (Int × Int))) (rt : String) (now : Nat) : VLMSFTData :=
  match existing with
  | some ex =>
    if ex.image_path = img then
      { image_id := pyStem img
        image_path := img
        task_type := ex.task_type
        text_ms := ex.text_ms, answer_ms := ex.answer_ms
        text_en := ex.text_en, answer_en := ex.answer_en
        language := ex.language
        source := ex.source
        split := ex.split
        difficulty := ex.difficulty
        tags := ex.tags
        bounding_box := boxes
        metadata := { ex.metadata with timestamp := now } }
    else freshSchema img boxes rt now
  | none => freshSchema img boxes rt now

/-! ### Path mapper (src/utils/file_utils.py lines 73-113) -/

/-- derive_full_relative_path with resolved paths modelled as component
lists: when the dataset root is a prefix of the image path, the slash-joined
components between the root and the file (empty string at root level);
otherwise the "(external)" sentinel (the ValueError branch). -/
def derive_full_relative_path (root p : List String) : String :=
  if root.isPrefixOf p then
    let parts := (p.drop root.length).dropLast
    if parts.isEmpty then "" else String.intercalate "/" parts
  else "(external)"

/-- _get_output_subdir: the output directory under ANNOT_ROOT as a component
list: kind-prefixed first category segment followed by the remaining
segments, a "(root)" sentinel for root-level images, and the sentinel string
itself for external or error structures. -/
def get_output_subdir (kind rel : String) : List String :=
  if rel ≠ "" ∧ rel ≠ "(external)" ∧ rel ≠ "(error_deriving_path)" then
    match strSplitOn '/' rel with
    | [] => [kind ++ "_"]
    | hd :: tl => (kind ++ "_" ++ hd) :: tl
  else if rel = "" then [kind ++ "_(root)"]
  else [kind ++ "_" ++ rel]

/-- First output segment after the kind marker: the first category segment,
or "(root)", or the error sentinel. -/
def dirToken (rel : String) : String :=
  if rel ≠ "" ∧ rel ≠ "(external)" ∧ rel ≠ "(error_deriving_path)" then
    (strSplitOn '/' rel).headD ""
  else if rel = "" then "(root)"
  else rel

/-- Output segments beyond the first. -/
def dirRest (rel : String) : List String :=
  if rel ≠ "" ∧ rel ≠ "(external)" ∧ rel ≠ "(error_deriving_path)" then
    (strSplitOn '/' rel).tail
  else []

/-! ### Rename pass (src/utils/file_utils.py lines 327-468) -/

/-- One schema JSON file: its on-disk name stem and the identity fields the
rename pass rewrites. -/
structure SchemaFile where
  name : String
  image_id : String
  image_path : String
deriving DecidableEq, Repr

/-- One dataset image together with the schema file (if any) living in its
mirrored schema directory. -/
structure Entry where
  dir : String
  stem : String
  ext : String
  schema : Option SchemaFile
deriving DecidableEq, Repr

/-- Filesystem events the rename pass performs, in order. -/
inductive RenameEv where
  | schemaRenamed (old new : String)
  | schemaWritten (name : String)
  | schemaRolledBack (new old : String)
  | imageRenamed (old new : String)
deriving DecidableEq, Repr

/-- Result of processing one image in the rename loop. -/
structure RenameOutcome where
  entry : Entry
  trace : List RenameEv
  success : Nat
  updated : Nat
  errors : Nat
deriving DecidableEq, Repr

/-- New relative path stored into a rewritten schema. -/
def newRelPath (e : Entry) (u : String) : String :=
  e.dir ++ "/" ++ u ++ e.ext

/-- One iteration of rename_dataset_files_to_uuid (file_utils.py lines
360-462): skip stems that already parse as a UUID; otherwise, when a schema
file named after the stem exists, rename it to the fresh identifier, then
rewrite its content (image_id and image_path) - on a content-write failure
the schema rename is rolled back, the image is left untouched and the file
counts as an error; only after the schema step does the image get renamed. -/
def processEntry (isUuid : String → Bool) (u : String) (writeFails : Bool)
    (e : Entry) : RenameOutcome :=
  if isUuid e.stem then ⟨e, [], 0, 0, 0⟩
  else
    match e.schema with
    | some sf =>
      if sf.name = e.stem then
        if writeFails then
          ⟨e, [.schemaRenamed e.stem u, .schemaRolledBack u e.stem], 0, 0, 1⟩
        else
          ⟨{ e with stem := u, schema := some ⟨u, u, newRelPath e u⟩ },
            [.schemaRenamed e.stem u, .schemaWritten u, .imageRenamed e.stem u],
            1, 1, 0⟩
      else ⟨{ e with stem := u }, [.imageRenamed e.stem u], 1, 0, 0⟩
    | none => ⟨{ e with stem := u }, [.imageRenamed e.stem u], 1, 0, 0⟩

/-- The whole rename pass: entry i consumes the fresh identifier `fresh i`
and suffers an injected content-write failure exactly when `fails i`;
returns the final entries, the event trace and the three counters. -/
def renamePass (isUuid : String → Bool) (fresh : Nat → String) (fails : Nat → Bool) :
    List Entry → Nat → List Entry × List RenameEv × Nat × Nat × Nat
  | [], _ => ([], [], 0, 0, 0)
  | e :: es, i =>
    let o := processEntry isUuid (fresh i) (fails i) e
    let rest := renamePass isUuid fresh fails es (i + 1)
    (o.entry :: rest.1, o.trace ++ rest.2.1,
      o.success + rest.2.2.1, o.updated + rest.2.2.2.1, o.errors + rest.2.2.2.2)

/-- An image whose own schema file exists (name equals the image stem) has
image_id equal to that stem. -/
def entryConsistent (e : Entry) : Bool :=
  match e.schema with
  | some sf => !(sf.name == e.stem) || (sf.image_id == e.stem)
  | none => true

/-- The image's schema file, when present, is named after the stem and
carries the stem as image_id (the state save_schema leaves behind). -/
def entryAligned (e : Entry) : Bool :=
  match e.schema with
  | some sf => (sf.name == e.stem) && (sf.image_id == e.stem)
  | none => true

/-! ### Stats walk (src/utils/file_utils.py get_schema_stats, lines 471-530) -/

/-- Parsed content of a schema JSON file, restricted to the fields the stats
walk reads. -/
structure SchemaJson where
  task_type : Option String
  bounding_box : Option (List (List (Int × Int)))
deriving DecidableEq, Repr

/-- One file found by the rglob walk: its path components relative to
ANNOT_ROOT (last component is the file name) and its parse result, `none`
modelling a json.loads failure. -/
structure StatFile where
  parts : List String
  parsed : Option SchemaJson
deriving DecidableEq, Repr

/-- The aggregate stats record. -/
structure Stats where
  total : Nat
  captioning : Nat
  vqa : Nat
  instruction : Nat
  with_boxes : Nat
  categories : List String
deriving DecidableEq, Repr

/-- Empty stats. -/
def initStats : Stats :=
  { total := 0, captioning := 0, vqa := 0, instruction := 0,
    with_boxes := 0, categories := [] }

/-- Python set.add, on a duplicate-free insertion list. -/
def insertSet (s : List String) (x : String) : List String :=
  if x ∈ s then s else s ++ [x]

/-- stats[task_type] += 1 guarded by `task_type in stats` over the counter
keys of the stats dict. -/
def bumpTask (st : Stats) (tt : String) : Stats :=
  if tt = "total" then { st with total := st.total + 1 }
  else if tt = "captioning" then { st with captioning := st.captioning + 1 }
  else if tt = "vqa" then { st with vqa := st.vqa + 1 }
  else if tt = "instruction" then { st with instruction := st.instruction + 1 }
  else if tt = "with_boxes" then { st with with_boxes := st.with_boxes + 1 }
  else st

/-- Category half of the get_schema_stats loop body (file_utils.py lines
494-503): record the category derived from the parent directory, stripping
the schema_ marker from its first segment. -/
def statCatStep (st : Stats) (f : StatFile) : Stats :=
  match f.parts.dropLast with
  | [] => st
  | hd :: tl =>
    if strStartsWith hd "schema_" then
      { st with categories :=
          insertSet st.categories (String.intercalate "/" (hd.drop 7 :: tl)) }
    else st

/-- Counting half of the get_schema_stats loop body (file_utils.py lines
508-521): on a JSON parse failure the file is skipped, otherwise it is
counted. A task_type equal to "categories" would hit the set with += 1 and
raise, which the handler turns into skipping the rest of the file. -/
def statCountStep (st : Stats) (f : StatFile) : Stats :=
  match f.parsed with
  | none => st
  | some d =>
    let st2 := { st with total := st.total + 1 }
    let tt := d.task_type.getD "unknown"
    if tt = "categories" then st2
    else
      let st3 := bumpTask st2 tt
      match d.bounding_box with
      | some l => if l.isEmpty then st3 else { st3 with with_boxes := st3.with_boxes + 1 }
      | none => st3

/-- Loop body of get_schema_stats: the category is recorded first, then the
JSON is parsed and counted. -/
def processStatFile (st : Stats) (f : StatFile) : Stats :=
  statCountStep (statCatStep st f) f

/-- get_schema_stats over the list of files the walk finds. -/
def get_schema_stats (files : List StatFile) : Stats :=
  files.foldl processStatFile initStats

/-- The numeric part of the stats record. -/
def statNums (st : Stats) : Nat × Nat × Nat × Nat × Nat :=
  (st.total, st.captioning, st.vqa, st.instruction, st.with_boxes)

/-! ## Lemmas about the canvas extraction and scaling -/

theorem extractBoxes_eq_map (objs : List CanvasObject) (dH : Int) :
    extractBoxes objs dH = (objs.filter goodRect).map (canvasBox dH) := by
  induction objs with
  | nil => rfl
  | cons o os ih =>
    by_cases hr : o.otype == "rect"
    · by_cases hd : o.width ≤ 0 ∨ o.height ≤ 0
      · have hg : goodRect o = false := by
          simp only [goodRect, hr, Bool.true_and, Bool.not_eq_false']
          rcases hd with h | h
          · exact Bool.or_eq_true_iff.mpr (Or.inl (decide_eq_true h))
          · exact Bool.or_eq_true_iff.mpr (Or.inr (decide_eq_true h))
        simpa [extractBoxes, List.filter_cons, hr, hd, hg] using ih
      · have hg : goodRect o = true := by
          push_neg at hd
          simp [goodRect, hr, not_le.mpr hd.1, not_le.mpr hd.2]
        simpa [extractBoxes, List.filter_cons, hr, hd, hg] using ih
    · have hg : goodRect o = false := by simp [goodRect, hr]
      simpa [extractBoxes, List.filter_cons, hr, hg] using ih

theorem canvasBox_length (dH : Int) (o : CanvasObject) : (canvasBox dH o).length = 4 := rfl

theorem boxW_canvasBox (dH : Int) (o : CanvasObject) : boxW (canvasBox dH o) = o.width := by
  simp [boxW, canvasBox]

theorem boxH_canvasBox (dH : Int) (o : CanvasObject) : boxH (canvasBox dH o) = o.height := by
  simp [boxH, canvasBox]

theorem get_scaled_boxes_eq_map (bs : List (List (Int × Int))) (s : Rat)
    (hlen : ∀ b ∈ bs, b.length = 4) :
    get_scaled_boxes bs s = bs.map (scaleBoxCode s) := by
  by_cases hc : |s - 1| < 1/1000000
  · unfold get_scaled_boxes
    rw [if_pos hc]
    have hfun : scaleBoxCode s = id := funext fun b => by
      unfold scaleBoxCode; rw [if_pos hc]; rfl
    rw [hfun, List.map_id]
  · unfold get_scaled_boxes
    rw [if_neg hc]
    induction bs with
    | nil => rfl
    | cons b tl ih =>
      have hb : b.length = 4 := hlen b (List.mem_cons_self b tl)
      have htl : ∀ x ∈ tl, x.length = 4 := fun x hx => hlen x (List.mem_cons_of_mem b hx)
      have hsb : scaleBoxCode s b
          = b.map (fun p => (pyRound ((p.1 : Rat) * s), pyRound ((p.2 : Rat) * s))) := by
        unfold scaleBoxCode; rw [if_neg hc]
      simp [List.filterMap_cons, hb, ih htl, hsb]

theorem get_scaled_boxes_far (bs : List (List (Int × Int))) (s : Rat)
    (hc : ¬ |s - 1| < 1/1000000) :
    get_scaled_boxes bs s = (bs.filter (fun b => b.length == 4)).map
      (fun b => b.map (fun p => (pyRound ((p.1 : Rat) * s), pyRound ((p.2 : Rat) * s)))) := by
  simp only [get_scaled_boxes, if_neg hc]
  induction bs with
  | nil => rfl
  | cons b tl ih =>
    by_cases hb : b.length = 4
    · simp [List.filterMap_cons, List.filter_cons, hb, ih]
    · simp [List.filterMap_cons, List.filter_cons, hb, ih]

theorem scaleBoxCode_length (s : Rat) (b : List (Int × Int)) :
    (scaleBoxCode s b).length = b.length := by
  unfold scaleBoxCode
  split <;> simp

/-- C6 helper: scaling at factor exactly 1 is the identity branch. -/
theorem get_scaled_boxes_one (bs : List (List (Int × Int))) :
    get_scaled_boxes bs 1 = bs := by
  have : |(1 : Rat) - 1| < 1/1000000 := by norm_num
  simp [get_scaled_boxes, this]

/-! ## C6 -/

/-- C6 (amended): at zoom_percent = 100 the displayed width equals the
rotated width, scale_factor is exactly 1, and display-space boxes pass
through get_scaled_boxes numerically unchanged. (The converse direction of
the claim fails, see the counterexample.) -/
theorem C6_scale_identity (w zoom : Nat) (boxes : List (List (Int × Int)))
    (hz : zoom = 100) :
    scale_factor w zoom = 1 ∧ displaySide w zoom = w ∧
    get_scaled_boxes boxes (scale_factor w zoom) = boxes := by
  subst hz
  refine ⟨by simp [scale_factor], ?_, ?_⟩
  · simp [displaySide]
  · simp [scale_factor, get_scaled_boxes_one]

/-- C6 witness: the amended statement at w = 7, zoom = 100, one box. -/
theorem C6_scale_identity_w :
    scale_factor 7 100 = 1 ∧ displaySide 7 100 = 7 ∧
    get_scaled_boxes [[((1 : Int), (2 : Int))]] (scale_factor 7 100)
      = [[((1 : Int), (2 : Int))]] :=
  C6_scale_identity 7 100 [[(1, 2)]] rfl

/-- C6 counterexample: a rotated width of 19 displayed at zoom 105 gives
int(19 * 105 / 100) = 19 displayed pixels, so scale_factor = 19/19 = 1.0
exactly although zoom_percent is not 100: the claimed equivalence is false. -/
theorem C6_counterexample : scale_factor 19 105 = 1 ∧ (105 : Nat) ≠ 100 := by
  constructor
  · norm_num [scale_factor, displaySide]
  · decide

/-! ## C8 -/

/-- C8: a canvas rectangle with zero or negative width or height is dropped
at extraction, the remaining objects keep being processed, every extracted
display box has positive width and height, and the degenerate rectangle
therefore never reaches the persisted (scaled) bounding_box list. -/
theorem C8_degenerate_rejected (xs ys : List CanvasObject) (bad : CanvasObject)
    (dH : Int) (s : Rat) (hbad : bad.width ≤ 0 ∨ bad.height ≤ 0) :
    extractBoxes (xs ++ bad :: ys) dH = extractBoxes (xs ++ ys) dH
    ∧ (∀ b ∈ extractBoxes (xs ++ bad :: ys) dH, 0 < boxW b ∧ 0 < boxH b)
    ∧ get_scaled_boxes (extractBoxes (xs ++ bad :: ys) dH) s
        = get_scaled_boxes (extractBoxes (xs ++ ys) dH) s := by
  have hg : goodRect bad = false := by
    unfold goodRect
    cases hbt : (bad.otype == "rect")
    · simp
    · simp only [Bool.true_and, Bool.not_eq_false']
      rcases hbad with h | h
      · exact Bool.or_eq_true_iff.mpr (Or.inl (decide_eq_true h))
      · exact Bool.or_eq_true_iff.mpr (Or.inr (decide_eq_true h))
  have heq : extractBoxes (xs ++ bad :: ys) dH = extractBoxes (xs ++ ys) dH := by
    rw [extractBoxes_eq_map, extractBoxes_eq_map, List.filter_append,
      List.filter_append, List.filter_cons, hg]
    simp
  refine ⟨heq, ?_, by rw [heq]⟩
  intro b hb
  rw [extractBoxes_eq_map] at hb
  rcases List.mem_map.mp hb with ⟨o, ho, rfl⟩
  have hgo : goodRect o = true := List.of_mem_filter ho
  have hw : 0 < o.width := by
    by_contra hle
    simp [goodRect, decide_eq_true (not_lt.mp hle)] at hgo
  have hh : 0 < o.height := by
    by_contra hle
    simp [goodRect, decide_eq_true (not_lt.mp hle)] at hgo
  rw [boxW_canvasBox, boxH_canvasBox]
  exact ⟨hw, hh⟩

/-- C8 witness: a degenerate rectangle (width 0) between two good ones is
dropped while both neighbours survive scaling. -/
theorem C8_degenerate_rejected_w :
    extractBoxes
        [⟨"rect", 1, 1, 2, 3, "#FF0000"⟩, ⟨"rect", 5, 5, 0, 4, "#FF0000"⟩,
          ⟨"rect", 2, 2, 1, 1, "#00FF00"⟩] 10
      = extractBoxes [⟨"rect", 1, 1, 2, 3, "#FF0000"⟩, ⟨"rect", 2, 2, 1, 1, "#00FF00"⟩] 10
    ∧ (∀ b ∈ extractBoxes
        [⟨"rect", 1, 1, 2, 3, "#FF0000"⟩, ⟨"rect", 5, 5, 0, 4, "#FF0000"⟩,
          ⟨"rect", 2, 2, 1, 1, "#00FF00"⟩] 10, 0 < boxW b ∧ 0 < boxH b)
    ∧ get_scaled_boxes (extractBoxes
        [⟨"rect", 1, 1, 2, 3, "#FF0000"⟩, ⟨"rect", 5, 5, 0, 4, "#FF0000"⟩,
          ⟨"rect", 2, 2, 1, 1, "#00FF00"⟩] 10) 2
      = get_scaled_boxes
          (extractBoxes [⟨"rect", 1, 1, 2, 3, "#FF0000"⟩, ⟨"rect", 2, 2, 1, 1, "#00FF00"⟩] 10) 2 :=
  C8_degenerate_rejected [⟨"rect", 1, 1, 2, 3, "#FF0000"⟩]
    [⟨"rect", 2, 2, 1, 1, "#00FF00"⟩] ⟨"rect", 5, 5, 0, 4, "#FF0000"⟩ 10 2
    (Or.inl (by decide))

/-! ## C9 -/

/-- C9: every box the confirm path persists is a 4-corner point list: the
canvas boundary only emits 4-corner boxes, and in its scaling branch
get_scaled_boxes keeps exactly the 4-element candidates (dropping the rest,
never raising) and maps them pointwise. -/
theorem C9_four_corners :
    (∀ (objs : List CanvasObject) (dH : Int) (s : Rat) b,
        b ∈ get_scaled_boxes (extractBoxes objs dH) s → b.length = 4)
    ∧ (∀ (bs : List (List (Int × Int))) (s : Rat) b, ¬ |s - 1| < 1/1000000 →
        b ∈ get_scaled_boxes bs s → b.length = 4)
    ∧ (∀ (bs : List (List (Int × Int))) (s : Rat), ¬ |s - 1| < 1/1000000 →
        get_scaled_boxes bs s = (bs.filter (fun b => b.length == 4)).map
          (fun b => b.map (fun p => (pyRound ((p.1 : Rat) * s), pyRound ((p.2 : Rat) * s))))) := by
  refine ⟨?_, ?_, fun bs s hc => get_scaled_boxes_far bs s hc⟩
  · intro objs dH s b hb
    have hlen : ∀ c ∈ extractBoxes objs dH, c.length = 4 := by
      intro c hc
      rw [extractBoxes_eq_map] at hc
      rcases List.mem_map.mp hc with ⟨o, _, rfl⟩
      exact canvasBox_length dH o
    rw [get_scaled_boxes_eq_map _ _ hlen] at hb
    rcases List.mem_map.mp hb with ⟨c, hc, rfl⟩
    rw [scaleBoxCode_length]
    exact hlen c hc
  · intro bs s b hc hb
    rw [get_scaled_boxes_far bs s hc] at hb
    rcases List.mem_map.mp hb with ⟨c, hc4, rfl⟩
    have h4 : (c.length == 4) = true := (List.mem_filter.mp hc4).2
    simp only [List.length_map]
    simpa using h4

/-- C9 witness: the first conjunct applied to one concrete rectangle at
scale 2, and the second conjunct to a raw 4-point candidate at scale 3. -/
theorem C9_four_corners_w :
    ([((2 : Int), (6 : Int)), (4, 6), (4, 2), (2, 2)] : List (Int × Int)).length = 4
    ∧ ([((3 : Int), (3 : Int)), (6, 3), (6, 0), (3, 0)] : List (Int × Int)).length = 4 := by
  have hm1 : [((2 : Int), (6 : Int)), (4, 6), (4, 2), (2, 2)]
      ∈ get_scaled_boxes (extractBoxes [⟨"rect", 1, 0, 1, 2, "#FF0000"⟩] 3) 2 := by
    have he : get_scaled_boxes (extractBoxes [⟨"rect", 1, 0, 1, 2, "#FF0000"⟩] 3) 2
        = [[(2, 6), (4, 6), (4, 2), (2, 2)]] := by
      rw [get_scaled_boxes_far _ _ (by norm_num)]
      norm_num [extractBoxes, canvasBox, pyRound, List.filterMap_cons, List.filter_cons]
    rw [he]
    exact List.mem_singleton_self _
  have hm2 : [((3 : Int), (3 : Int)), (6, 3), (6, 0), (3, 0)]
      ∈ get_scaled_boxes [[(1, 1), (2, 1), (2, 0), (1, 0)]] 3 := by
    have he : get_scaled_boxes [[((1 : Int), (1 : Int)), (2, 1), (2, 0), (1, 0)]] 3
        = [[(3, 3), (6, 3), (6, 0), (3, 0)]] := by
      rw [get_scaled_boxes_far _ _ (by norm_num)]
      norm_num [pyRound]
    rw [he]
    exact List.mem_singleton_self _
  exact ⟨C9_four_corners.1 [⟨"rect", 1, 0, 1, 2, "#FF0000"⟩] 3 2
      [(2, 6), (4, 6), (4, 2), (2, 2)] hm1,
    C9_four_corners.2.1 [[(1, 1), (2, 1), (2, 0), (1, 0)]] 3
      [(3, 3), (6, 3), (6, 0), (3, 0)] (by norm_num) hm2⟩

/-! ## C1 -/

/-- C1 (amended): the boxes persisted on confirm are exactly the drawn
display-space boxes (bottom-left origin, rotated display frame) with each
coordinate multiplied by scale_factor and rounded - no origin un-flip and
no inverse right-angle rotation mapping is applied. In particular the
pipeline depends on the rotation only through the swapped dimensions:
confirming at rotation 90 or 270 of a w x h image persists the same boxes
as confirming at rotation 0 of an h x w image. -/
theorem C1_persisted_boxes (objs : List CanvasObject) (w h rot zoom : Nat) :
    codeConfirmBoxes objs w h rot zoom
      = (objs.filter goodRect).map (fun o =>
          scaleBoxCode (scale_factor (rotatedDims w h rot).1 zoom)
            (canvasBox ((displaySide (rotatedDims w h rot).2 zoom : Nat) : Int) o))
    ∧ codeConfirmBoxes objs w h 90 zoom = codeConfirmBoxes objs h w 0 zoom
    ∧ codeConfirmBoxes objs w h 180 zoom = codeConfirmBoxes objs w h 0 zoom
    ∧ codeConfirmBoxes objs w h 270 zoom = codeConfirmBoxes objs h w 0 zoom := by
  refine ⟨?_, ?_, ?_, ?_⟩
  · unfold codeConfirmBoxes
    rw [extractBoxes_eq_map, get_scaled_boxes_eq_map]
    · rw [List.map_map]
      rfl
    · intro b hb
      rcases List.mem_map.mp hb with ⟨o, _, rfl⟩
      exact canvasBox_length _ o
  · unfold codeConfirmBoxes
    norm_num [rotatedDims]
  · unfold codeConfirmBoxes
    norm_num [rotatedDims]
  · unfold codeConfirmBoxes
    norm_num [rotatedDims]

/-- C1 counterexample: the concrete scenario of spec section 8. An image of
size 3000 x 2000 rotated 90 degrees clockwise (rotated size 2000 x 3000)
is displayed at zoom 50 (display 1000 x 1500, scale_factor 2); the drawn
rectangle left=100, top=200, width=50, height=80 is stored as the
display-space box [(100,1300),(150,1300),(150,1220),(100,1220)].
The code persists [(200,2600),(300,2600),(300,2440),(200,2440)] - the
display box merely doubled - while the spec pipeline (undo flip, scale,
inverse 90-degree mapping in the 2000-wide rotated frame) requires
[(400,1800),(400,1700),(560,1700),(560,1800)]. The persisted first corner
(200,2600) differs from the required (400,1800), and its y-coordinate 2600
even exceeds the original image height 2000, so the persisted box is not
expressed in rotation-0 original-image space. -/
theorem C1_counterexample :
    codeConfirmBoxes [⟨"rect", 100, 200, 50, 80, "#FF0000"⟩] 3000 2000 90 50
      = [[(200, 2600), (300, 2600), (300, 2440), (200, 2440)]]
    ∧ extractBoxes [⟨"rect", 100, 200, 50, 80, "#FF0000"⟩] 1500
      = [[(100, 1300), (150, 1300), (150, 1220), (100, 1220)]]
    ∧ specToOriginalBox 90 2000 3000 1500 2
        [(100, 1300), (150, 1300), (150, 1220), (100, 1220)]
      = [(400, 1800), (400, 1700), (560, 1700), (560, 1800)]
    ∧ ((200 : Rat), (2600 : Rat)) ≠ ((400 : Rat), (1800 : Rat))
    ∧ (2000 : Int) < 2600 := by
  refine ⟨?_, ?_, ?_, ?_, by norm_num⟩
  · unfold codeConfirmBoxes
    rw [get_scaled_boxes_far _ _ (by norm_num [rotatedDims, displaySide, scale_factor])]
    norm_num [extractBoxes, canvasBox, pyRound, rotatedDims, displaySide, scale_factor,
      List.filterMap_cons, List.filter_cons]
  · norm_num [extractBoxes, canvasBox, List.filterMap_cons, List.filter_cons]
  · norm_num [specToOriginalBox, specToOriginalPoint]
  · intro hcontra
    have := congrArg Prod.fst hcontra
    norm_num at this

/-! ## C3 -/

/-- C3 (amended): when the loaded record's image_path equals the confirmed
path, the merged record takes bounding_box from the new confirm action but
preserves task_type together with every human-entered field (the four text
fields, difficulty, tags, language, split, source, metadata annotator and
license) from the existing record, refreshing only the metadata timestamp;
when the paths differ the merge behaves as create-fresh with default field
values, and only there is task_type derived from the new boxes (captioning
when none, else the vqa/instruction draw). -/
theorem C3_merge_preserves (ex : VLMSFTData) (img : String)
    (boxes : List (List (Int × Int))) (rt : String) (now : Nat) :
    (ex.image_path = img →
      (confirmSchema (some ex) img boxes rt now).bounding_box = boxes
      ∧ (confirmSchema (some ex) img boxes rt now).task_type = ex.task_type
      ∧ (confirmSchema (some ex) img boxes rt now).text_en = ex.text_en
      ∧ (confirmSchema (some ex) img boxes rt now).text_ms = ex.text_ms
      ∧ (confirmSchema (some ex) img boxes rt now).answer_en = ex.answer_en
      ∧ (confirmSchema (some ex) img boxes rt now).answer_ms = ex.answer_ms
      ∧ (confirmSchema (some ex) img boxes rt now).difficulty = ex.difficulty
      ∧ (confirmSchema (some ex) img boxes rt now).tags = ex.tags
      ∧ (confirmSchema (some ex) img boxes rt now).language = ex.language
      ∧ (confirmSchema (some ex) img boxes rt now).split = ex.split
      ∧ (confirmSchema (some ex) img boxes rt now).source = ex.source
      ∧ (confirmSchema (some ex) img boxes rt now).metadata.annotator_id
          = ex.metadata.annotator_id
      ∧ (confirmSchema (some ex) img boxes rt now).metadata.license = ex.metadata.license
      ∧ (confirmSchema (some ex) img boxes rt now).metadata.timestamp = now)
    ∧ (ex.image_path ≠ img →
        confirmSchema (some ex) img boxes rt now = freshSchema img boxes rt now)
    ∧ (freshSchema img boxes rt now).task_type
        = (if boxes.isEmpty then "captioning" else rt) := by
  refine ⟨fun hp => ?_, fun hp => ?_, rfl⟩
  · simp [confirmSchema, hp]
  · simp [confirmSchema, hp]

/-- C3 witness: a record with text_en = "hello" merged at the same path
keeps the text and takes the new boxes; the same record confirmed under a
different path produces the fresh default record. -/
theorem C3_merge_preserves_w :
    (confirmSchema
        (some { image_id := "a", image_path := "dataset/a.jpg", task_type := "vqa",
                text_ms := "", answer_ms := "", text_en := "hello", answer_en := "",
                language := defaultLanguage, source := "Image_Annotater", split := "train",
                difficulty := "medium", tags := [], bounding_box := [],
                metadata := freshMeta 0 })
        "dataset/a.jpg" [[(0, 0), (2, 0), (2, 2), (0, 2)]] "instruction" 5).text_en = "hello"
    ∧ (confirmSchema
        (some { image_id := "a", image_path := "dataset/a.jpg", task_type := "vqa",
                text_ms := "", answer_ms := "", text_en := "hello", answer_en := "",
                language := defaultLanguage, source := "Image_Annotater", split := "train",
                difficulty := "medium", tags := [], bounding_box := [],
                metadata := freshMeta 0 })
        "dataset/a.jpg" [[(0, 0), (2, 0), (2, 2), (0, 2)]] "instruction" 5).bounding_box
        = [[(0, 0), (2, 0), (2, 2), (0, 2)]]
    ∧ confirmSchema
        (some { image_id := "a", image_path := "dataset/a.jpg", task_type := "vqa",
                text_ms := "", answer_ms := "", text_en := "hello", answer_en := "",
                language := defaultLanguage, source := "Image_Annotater", split := "train",
                difficulty := "medium", tags := [], bounding_box := [],
                metadata := freshMeta 0 })
        "dataset/b.jpg" [] "vqa" 5 = freshSchema "dataset/b.jpg" [] "vqa" 5 :=
  ⟨((C3_merge_preserves _ "dataset/a.jpg" [[(0, 0), (2, 0), (2, 2), (0, 2)]]
      "instruction" 5).1 rfl).2.2.1,
    ((C3_merge_preserves _ "dataset/a.jpg" [[(0, 0), (2, 0), (2, 2), (0, 2)]]
      "instruction" 5).1 rfl).1,
    (C3_merge_preserves _ "dataset/b.jpg" [] "vqa" 5).2.1 (by decide)⟩

/-- C3 counterexample: an existing record for the same path with task_type
"captioning" merged with a non-empty box list keeps task_type "captioning",
although the claim requires the merged record to take a derived vqa or
instruction task_type from the new confirm action. -/
theorem C3_counterexample :
    (confirmSchema
        (some { image_id := "a", image_path := "dataset/a.jpg", task_type := "captioning",
                text_ms := "", answer_ms := "", text_en := "hello", answer_en := "",
                language := defaultLanguage, source := "Image_Annotater", split := "train",
                difficulty := "medium", tags := [], bounding_box := [],
                metadata := freshMeta 0 })
        "dataset/a.jpg" [[(0, 0), (1, 0), (1, 1), (0, 1)]] "vqa" 7).task_type = "captioning"
    ∧ ("captioning" : String) ≠ "vqa"
    ∧ ("captioning" : String) ≠ "instruction"
    ∧ ([[(0, 0), (1, 0), (1, 1), (0, 1)]] : List (List (Int × Int))).isEmpty = false := by
  refine ⟨?_, by decide, by decide, rfl⟩
  simp [confirmSchema]

/-! ## C5 and C7: the path mapper -/

theorem get_output_subdir_decomp (kind rel : String) :
    get_output_subdir kind rel = (kind ++ "_" ++ dirToken rel) :: dirRest rel := by
  unfold get_output_subdir dirToken dirRest
  by_cases h1 : rel ≠ "" ∧ rel ≠ "(external)" ∧ rel ≠ "(error_deriving_path)"
  · rw [if_pos h1, if_pos h1, if_pos h1]
    cases hsp : strSplitOn '/' rel with
    | nil => simp [String.append_empty]
    | cons hd tl => simp
  · rw [if_neg h1, if_neg h1, if_neg h1]
    by_cases h2 : rel = ""
    · rw [if_pos h2, if_pos h2]
      rw [String.append_assoc]
      rfl
    · rw [if_neg h2, if_neg h2]

/-- C5 (amended): for an image path that does not resolve under the dataset
root, derive_full_relative_path raises nothing and returns the "(external)"
sentinel string (the caught-ValueError branch), and the output-directory
helper then routes both kinds of output into a <kind>_(external) directory
under the annotation root instead of excluding the image. -/
theorem C5_external_sentinel (root p : List String) (kind : String)
    (h : root.isPrefixOf p = false) :
    derive_full_relative_path root p = "(external)"
    ∧ get_output_subdir kind (derive_full_relative_path root p)
        = [kind ++ "_" ++ "(external)"] := by
  have hd : derive_full_relative_path root p = "(external)" := by
    unfold derive_full_relative_path
    simp [h]
  refine ⟨hd, ?_⟩
  rw [hd, get_output_subdir_decomp]
  have ht : dirToken "(external)" = "(external)" := by decide
  have hr : dirRest "(external)" = [] := by decide
  rw [ht, hr]

/-- C5 witness: a concrete path outside the dataset root. -/
theorem C5_external_sentinel_w :
    derive_full_relative_path ["home", "ds", "dataset"] ["home", "ds", "other", "x.jpg"]
      = "(external)"
    ∧ get_output_subdir "schema"
        (derive_full_relative_path ["home", "ds", "dataset"] ["home", "ds", "other", "x.jpg"])
      = ["schema" ++ "_" ++ "(external)"] :=
  C5_external_sentinel ["home", "ds", "dataset"] ["home", "ds", "other", "x.jpg"]
    "schema" (by decide)

/-- C5 counterexample: for an image outside the dataset root the category
derivation does not fail with any error - it returns the "(external)"
sentinel - and output directories schema_(external) and annotated_(external)
are produced for it rather than the image being excluded from synchronized
output. -/
theorem C5_counterexample :
    derive_full_relative_path ["home", "ds", "dataset"] ["home", "other", "x.jpg"]
      = "(external)"
    ∧ get_output_subdir "schema" "(external)" = ["schema_(external)"]
    ∧ get_output_subdir "annotated" "(external)" = ["annotated_(external)"] := by
  refine ⟨by decide, by decide, by decide⟩

/-- C7: for every category key the schema and annotated output directories
share the token after the kind marker and all remaining segments, so they
differ only in the kind token; an empty key yields the literal "(root)"
sentinel in both. -/
theorem C7_mirrored_trees (rel : String) :
    get_output_subdir "schema" rel = ("schema_" ++ dirToken rel) :: dirRest rel
    ∧ get_output_subdir "annotated" rel = ("annotated_" ++ dirToken rel) :: dirRest rel
    ∧ (rel = "" → dirToken rel = "(root)")
    ∧ (get_output_subdir "schema" rel).tail = (get_output_subdir "annotated" rel).tail := by
  have hs : get_output_subdir "schema" rel = ("schema_" ++ dirToken rel) :: dirRest rel := by
    rw [get_output_subdir_decomp]
    rfl
  have ha : get_output_subdir "annotated" rel
      = ("annotated_" ++ dirToken rel) :: dirRest rel := by
    rw [get_output_subdir_decomp]
    rfl
  refine ⟨hs, ha, fun h0 => ?_, by rw [hs, ha]; rfl⟩
  subst h0
  decide

/-- C7 witness: the decomposition at the concrete two-level category
Food/Chinese and at the empty (root) category. -/
theorem C7_mirrored_trees_w :
    get_output_subdir "schema" "Food/Chinese"
      = ("schema_" ++ dirToken "Food/Chinese") :: dirRest "Food/Chinese"
    ∧ get_output_subdir "annotated" "Food/Chinese"
      = ("annotated_" ++ dirToken "Food/Chinese") :: dirRest "Food/Chinese"
    ∧ get_output_subdir "schema" "" = ("schema_" ++ dirToken "") :: dirRest ""
    ∧ dirToken "" = "(root)" :=
  ⟨(C7_mirrored_trees "Food/Chinese").1, (C7_mirrored_trees "Food/Chinese").2.1,
    (C7_mirrored_trees "").1, (C7_mirrored_trees "").2.2.1 rfl⟩

/-! ## C2 and C4: the rename pass -/

theorem entryAligned_consistent (e : Entry) (h : entryAligned e = true) :
    entryConsistent e = true := by
  cases hs : e.schema with
  | none => simp [entryConsistent, hs]
  | some sf =>
    simp only [entryAligned, hs, Bool.and_eq_true, beq_iff_eq] at h
    simp [entryConsistent, hs, h.1, h.2]

theorem processEntry_aligned (isU : String → Bool) (u : String) (wf : Bool) (e : Entry)
    (h : entryAligned e = true) : entryAligned (processEntry isU u wf e).entry = true := by
  unfold processEntry
  by_cases hu : isU e.stem = true
  · rw [if_pos hu]
    exact h
  · rw [if_neg hu]
    cases hs : e.schema with
    | none =>
      dsimp only
      simp [entryAligned]
    | some sf =>
      dsimp only
      simp only [entryAligned, hs, Bool.and_eq_true, beq_iff_eq] at h
      rw [if_pos h.1]
      cases wf with
      | false => simp [entryAligned]
      | true =>
        simp [entryAligned, hs, h.1, h.2]

theorem renamePass_aligned (isU : String → Bool) (fresh : Nat → String)
    (fails : Nat → Bool) (entries : List Entry) :
    ∀ i, (∀ e ∈ entries, entryAligned e = true) →
      ∀ e2 ∈ (renamePass isU fresh fails entries i).1, entryAligned e2 = true := by
  induction entries with
  | nil =>
    intro i _ e2 he2
    simp [renamePass] at he2
  | cons e es ih =>
    intro i h e2 he2
    simp only [renamePass] at he2
    rcases List.mem_cons.mp he2 with h1 | h1
    · rw [h1]
      exact processEntry_aligned isU (fresh i) (fails i) e (h e (List.mem_cons_self e es))
    · exact ih (i + 1) (fun x hx => h x (List.mem_cons_of_mem _ hx)) e2 h1

/-- C2: starting from a tree in which every schema file is named after its
image and carries the stem as image_id, the rename pass keeps that
consistency even under injected content-write failures; and per image with
a matching schema, the schema file is renamed before its content is
written, on a write failure the rename is rolled back with the image left
untouched and counted as an error, and the image is renamed only after the
schema step succeeds (with the schema then carrying the new identifier). -/
theorem C2_rename_consistency (isU : String → Bool) (fresh : Nat → String)
    (fails : Nat → Bool) (entries : List Entry) (i : Nat)
    (hpre : ∀ e ∈ entries, entryAligned e = true) :
    (∀ e2 ∈ (renamePass isU fresh fails entries i).1, entryConsistent e2 = true)
    ∧ (∀ (u : String) (e : Entry) (sf : SchemaFile), isU e.stem = false →
        e.schema = some sf → sf.name = e.stem →
        (processEntry isU u true e).entry = e
        ∧ (processEntry isU u true e).errors = 1
        ∧ (processEntry isU u true e).trace
            = [RenameEv.schemaRenamed e.stem u, RenameEv.schemaRolledBack u e.stem]
        ∧ (processEntry isU u false e).trace
            = [RenameEv.schemaRenamed e.stem u, RenameEv.schemaWritten u,
                RenameEv.imageRenamed e.stem u]
        ∧ (processEntry isU u false e).entry.stem = u
        ∧ (processEntry isU u false e).entry.schema = some ⟨u, u, newRelPath e u⟩) := by
  constructor
  · intro e2 he2
    exact entryAligned_consistent e2 (renamePass_aligned isU fresh fails entries i hpre e2 he2)
  · intro u e sf hu hs hn
    simp [processEntry, hu, hs, hn]

/-- C2 witness: one non-identifier image with a matching schema, processed
with an injected write failure; consistency and the rollback facts hold. -/
theorem C2_rename_consistency_w :
    entryConsistent ⟨"d", "a", ".jpg", some ⟨"a", "a", "d/a.jpg"⟩⟩ = true
    ∧ (processEntry (fun s => s == "zz") "u1" true
        ⟨"d", "a", ".jpg", some ⟨"a", "a", "d/a.jpg"⟩⟩).errors = 1 :=
  ⟨(C2_rename_consistency (fun s => s == "zz") (fun _ => "u1") (fun _ => true)
      [⟨"d", "a", ".jpg", some ⟨"a", "a", "d/a.jpg"⟩⟩] 0 (by decide)).1
      ⟨"d", "a", ".jpg", some ⟨"a", "a", "d/a.jpg"⟩⟩ (by decide),
    ((C2_rename_consistency (fun s => s == "zz") (fun _ => "u1") (fun _ => true)
      [⟨"d", "a", ".jpg", some ⟨"a", "a", "d/a.jpg"⟩⟩] 0 (by decide)).2 "u1"
      ⟨"d", "a", ".jpg", some ⟨"a", "a", "d/a.jpg"⟩⟩ ⟨"a", "a", "d/a.jpg"⟩
      (by decide) rfl rfl).2.1⟩

theorem processEntry_skip (isU : String → Bool) (u : String) (wf : Bool) (e : Entry)
    (h : isU e.stem = true) : processEntry isU u wf e = ⟨e, [], 0, 0, 0⟩ := by
  unfold processEntry
  rw [if_pos h]

theorem renamePass_skip_all (isU : String → Bool) (f : Nat → String) (fl : Nat → Bool)
    (entries : List Entry) :
    ∀ j, (∀ e ∈ entries, isU e.stem = true) →
      renamePass isU f fl entries j = (entries, [], 0, 0, 0) := by
  induction entries with
  | nil => intro j _; rfl
  | cons e es ih =>
    intro j h
    simp only [renamePass]
    rw [processEntry_skip isU (f j) (fl j) e (h e (List.mem_cons_self e es)),
      ih (j + 1) (fun x hx => h x (List.mem_cons_of_mem _ hx))]
    rfl

theorem processEntry_noFail_uuid (isU : String → Bool) (u : String) (e : Entry)
    (hu : isU u = true) : isU (processEntry isU u false e).entry.stem = true := by
  unfold processEntry
  by_cases h : isU e.stem = true
  · rw [if_pos h]
    exact h
  · rw [if_neg h]
    cases hs : e.schema with
    | none => exact hu
    | some sf =>
      dsimp only
      by_cases hn : sf.name = e.stem
      · rw [if_pos hn]
        exact hu
      · rw [if_neg hn]
        exact hu

theorem renamePass_noFail_uuid (isU : String → Bool) (fresh : Nat → String)
    (hfr : ∀ n, isU (fresh n) = true) (entries : List Entry) :
    ∀ i, ∀ e2 ∈ (renamePass isU fresh (fun _ => false) entries i).1, isU e2.stem = true := by
  induction entries with
  | nil =>
    intro i e2 he2
    simp [renamePass] at he2
  | cons e es ih =>
    intro i e2 he2
    simp only [renamePass] at he2
    rcases List.mem_cons.mp he2 with h1 | h1
    · rw [h1]
      exact processEntry_noFail_uuid isU (fresh i) e (hfr i)
    · exact ih (i + 1) e2 h1

/-- C4: after a fully successful pass (fresh identifiers always well-formed,
no injected failures) every image stem parses as an identifier, and running
the pass again on that tree - with any fresh-name source and any injected
failures - leaves every entry untouched and performs zero renames, zero
schema writes and zero events of any kind. -/
theorem C4_idempotent (isU : String → Bool) (fresh fresh2 : Nat → String)
    (fails2 : Nat → Bool) (entries : List Entry) (i j : Nat)
    (hfresh : ∀ n, isU (fresh n) = true) :
    (∀ e ∈ (renamePass isU fresh (fun _ => false) entries i).1, isU e.stem = true)
    ∧ renamePass isU fresh2 fails2 ((renamePass isU fresh (fun _ => false) entries i).1) j
        = ((renamePass isU fresh (fun _ => false) entries i).1, [], 0, 0, 0) := by
  have hall := renamePass_noFail_uuid isU fresh hfresh entries i
  exact ⟨hall, renamePass_skip_all isU fresh2 fails2 _ j hall⟩

/-- C4 witness: the second-pass identity at a concrete one-entry tree. -/
theorem C4_idempotent_w :
    renamePass (fun _ => true) (fun n => "u" ++ toString n) (fun _ => true)
        ((renamePass (fun _ => true) (fun n => "v" ++ toString n) (fun _ => false)
          [{ dir := "d", stem := "a", ext := ".jpg", schema := none }] 0).1) 3
      = ((renamePass (fun _ => true) (fun n => "v" ++ toString n) (fun _ => false)
          [{ dir := "d", stem := "a", ext := ".jpg", schema := none }] 0).1, [], 0, 0, 0) :=
  (C4_idempotent (fun _ => true) (fun n => "v" ++ toString n) (fun n => "u" ++ toString n)
    (fun _ => true) [{ dir := "d", stem := "a", ext := ".jpg", schema := none }] 0 3
    (fun _ => rfl)).2

/-! ## C10: the stats walk -/

theorem insertSet_self (s : List String) (x : String) : x ∈ insertSet s x := by
  unfold insertSet
  by_cases h : x ∈ s
  · rw [if_pos h]
    exact h
  · rw [if_neg h]
    exact List.mem_append_right s (List.mem_singleton_self x)

theorem insertSet_mono (s : List String) (x y : String) (h : x ∈ s) :
    x ∈ insertSet s y := by
  unfold insertSet
  by_cases hy : y ∈ s
  · rw [if_pos hy]
    exact h
  · rw [if_neg hy]
    exact List.mem_append_left _ h

theorem statCatStep_nums (st : Stats) (f : StatFile) :
    statNums (statCatStep st f) = statNums st := by
  unfold statCatStep
  cases hdl : f.parts.dropLast with
  | nil => rfl
  | cons hd tl =>
    dsimp only
    by_cases hsw : strStartsWith hd "schema_" = true
    · rw [if_pos hsw]
      rfl
    · rw [if_neg hsw]

theorem statCatStep_cats_mono (st : Stats) (f : StatFile) (x : String)
    (h : x ∈ st.categories) : x ∈ (statCatStep st f).categories := by
  unfold statCatStep
  cases hdl : f.parts.dropLast with
  | nil => exact h
  | cons hd tl =>
    dsimp only
    by_cases hsw : strStartsWith hd "schema_" = true
    · rw [if_pos hsw]
      exact insertSet_mono _ _ _ h
    · rw [if_neg hsw]
      exact h

theorem statCatStep_adds (st : Stats) (f : StatFile) (hd : String) (tl : List String)
    (hdl : f.parts.dropLast = hd :: tl) (hsw : strStartsWith hd "schema_" = true) :
    String.intercalate "/" (hd.drop 7 :: tl) ∈ (statCatStep st f).categories := by
  unfold statCatStep
  rw [hdl]
  dsimp only
  rw [if_pos hsw]
  exact insertSet_self _ _

theorem bumpTask_cats (st : Stats) (tt : String) :
    (bumpTask st tt).categories = st.categories := by
  unfold bumpTask
  split_ifs <;> rfl

theorem bumpTask_nums_congr (a b : Stats) (tt : String) (h : statNums a = statNums b) :
    statNums (bumpTask a tt) = statNums (bumpTask b tt) := by
  cases a
  cases b
  simp only [statNums, Prod.mk.injEq] at h
  obtain ⟨h1, h2, h3, h4, h5⟩ := h
  subst h1 h2 h3 h4 h5
  unfold bumpTask
  split_ifs <;> simp [statNums]

theorem statCountStep_cats (st : Stats) (f : StatFile) :
    (statCountStep st f).categories = st.categories := by
  unfold statCountStep
  cases hp : f.parsed with
  | none => rfl
  | some d =>
    dsimp only
    by_cases h1 : d.task_type.getD "unknown" = "categories"
    · rw [if_pos h1]
    · rw [if_neg h1]
      cases hb : d.bounding_box with
      | none => exact bumpTask_cats _ _
      | some l =>
        dsimp only
        by_cases he : l.isEmpty = true
        · rw [if_pos he]
          exact bumpTask_cats _ _
        · rw [if_neg he]
          exact bumpTask_cats _ _

theorem statCountStep_nums_congr (a b : Stats) (f : StatFile)
    (h : statNums a = statNums b) :
    statNums (statCountStep a f) = statNums (statCountStep b f) := by
  have h' : statNums { a with total := a.total + 1 }
      = statNums { b with total := b.total + 1 } := by
    cases a
    cases b
    simp only [statNums, Prod.mk.injEq] at h ⊢
    exact ⟨by rw [h.1], h.2⟩
  unfold statCountStep
  cases hp : f.parsed with
  | none => exact h
  | some d =>
    dsimp only
    by_cases h1 : d.task_type.getD "unknown" = "categories"
    · rw [if_pos h1, if_pos h1]
      exact h'
    · rw [if_neg h1, if_neg h1]
      have hb' := bumpTask_nums_congr _ _ (d.task_type.getD "unknown") h'
      cases hbb : d.bounding_box with
      | none => exact hb'
      | some l =>
        dsimp only
        by_cases he : l.isEmpty = true
        · rw [if_pos he, if_pos he]
          exact hb'
        · rw [if_neg he, if_neg he]
          simp only [statNums, Prod.mk.injEq] at hb' ⊢
          exact ⟨hb'.1, hb'.2.1, hb'.2.2.1, hb'.2.2.2.1, by rw [hb'.2.2.2.2]⟩

theorem statCountStep_none (st : Stats) (f : StatFile) (hf : f.parsed = none) :
    statCountStep st f = st := by
  unfold statCountStep
  rw [hf]

theorem foldl_stats_nums_congr (l : List StatFile) :
    ∀ a b, statNums a = statNums b →
      statNums (l.foldl processStatFile a) = statNums (l.foldl processStatFile b) := by
  induction l with
  | nil => intro a b h; exact h
  | cons f fs ih =>
    intro a b h
    simp only [List.foldl_cons]
    apply ih
    unfold processStatFile
    apply statCountStep_nums_congr
    rw [statCatStep_nums, statCatStep_nums]
    exact h

theorem foldl_stats_cats_mono (l : List StatFile) :
    ∀ (st : Stats) (x : String), x ∈ st.categories →
      x ∈ (l.foldl processStatFile st).categories := by
  induction l with
  | nil => intro st x h; exact h
  | cons f fs ih =>
    intro st x h
    simp only [List.foldl_cons]
    apply ih
    unfold processStatFile
    rw [statCountStep_cats]
    exact statCatStep_cats_mono _ _ _ h

/-- C10: a schema file whose JSON fails to parse contributes nothing to
total, with_boxes or the per-task-type counters and never aborts the walk
(the remaining files are still counted identically), yet when its parent
directory starts with the schema_ marker its category is still added to the
distinct-categories set, because the category is recorded before the JSON
is parsed. -/
theorem C10_malformed_json (pre post : List StatFile) (f : StatFile)
    (hf : f.parsed = none) :
    statNums (get_schema_stats (pre ++ f :: post))
      = statNums (get_schema_stats (pre ++ post))
    ∧ (∀ (hd : String) (tl : List String), f.parts.dropLast = hd :: tl →
        strStartsWith hd "schema_" = true →
        String.intercalate "/" (hd.drop 7 :: tl)
          ∈ (get_schema_stats (pre ++ f :: post)).categories) := by
  have hsplit : get_schema_stats (pre ++ f :: post)
      = post.foldl processStatFile (processStatFile (pre.foldl processStatFile initStats) f) := by
    unfold get_schema_stats
    rw [List.foldl_append, List.foldl_cons]
  have hsplit2 : get_schema_stats (pre ++ post)
      = post.foldl processStatFile (pre.foldl processStatFile initStats) := by
    unfold get_schema_stats
    rw [List.foldl_append]
  constructor
  · rw [hsplit, hsplit2]
    apply foldl_stats_nums_congr
    unfold processStatFile
    rw [statCountStep_none _ _ hf, statCatStep_nums]
  · intro hd tl hdl hsw
    rw [hsplit]
    apply foldl_stats_cats_mono
    unfold processStatFile
    rw [statCountStep_cats]
    exact statCatStep_adds _ _ hd tl hdl hsw

/-- C10 witness: one malformed schema JSON under schema_Food/Chinese next to
one well-formed file; the numeric stats equal those without the malformed
file and the category Food/Chinese is still collected. -/
theorem C10_malformed_json_w :
    statNums (get_schema_stats
        [⟨["schema_Food", "Chinese", "x.json"], none⟩,
          ⟨["schema_Food", "y.json"], some ⟨some "vqa", some [[(0, 0)]]⟩⟩])
      = statNums (get_schema_stats
          [⟨["schema_Food", "y.json"], some ⟨some "vqa", some [[(0, 0)]]⟩⟩])
    ∧ String.intercalate "/" ("schema_Food".drop 7 :: ["Chinese"])
        ∈ (get_schema_stats
            [⟨["schema_Food", "Chinese", "x.json"], none⟩,
              ⟨["schema_Food", "y.json"], some ⟨some "vqa", some [[(0, 0)]]⟩⟩]).categories :=
  ⟨(C10_malformed_json [] [⟨["schema_Food", "y.json"], some ⟨some "vqa", some [[(0, 0)]]⟩⟩]
      ⟨["schema_Food", "Chinese", "x.json"], none⟩ rfl).1,
    (C10_malformed_json [] [⟨["schema_Food", "y.json"], some ⟨some "vqa", some [[(0, 0)]]⟩⟩]
      ⟨["schema_Food", "Chinese", "x.json"], none⟩ rfl).2 "schema_Food" ["Chinese"]
      rfl (by decide)⟩

end ImgAnnot
